import Mathlib

/-!
Verification of the VermilionRC process fabric: a shallow embedding of the
descriptor-owning endpoint types (src/pipe.rs, src/control.rs), the message
layer (src/msg.rs), the Ipc registration handshake (src/procs/ipc.rs), the
Logger's pipe-forwarding task (src/procs/logger.rs) and the Supervisor's
restart loop (src/procs/supervisor.rs).

Machine integers (RawFd = i32, pid_t = i32) are modelled as Int; no arithmetic
here can overflow 31 bits.  A process's kernel descriptor table is modelled as
the list of open descriptor numbers, and each syscall (close, dup2) as an
explicit transformation of that list, failing with EBADF exactly where the
kernel would.  Rust async functions are modelled on their completed result:
would-block suspension is invisible to the properties below, which quantify
over the value a call resolves to.
-/

/-- Direction marker for endpoints: src/pipe.rs declares the phantom types
Read and Write implementing the End trait. -/
inductive EndDir
  | Read
  | Write
deriving DecidableEq

/-- A process's table of open file descriptors, as the list of open numbers. -/
abbrev FdTable := List Int

/-- Errors of the nix syscall wrappers that the embedding distinguishes. -/
inductive NixErr
  | EBADF
deriving DecidableEq

/-- Kernel close(2): removes an open descriptor, fails with EBADF otherwise. -/
def closeSys (tbl : FdTable) (fd : Int) : Except NixErr FdTable :=
  if fd ∈ tbl then .ok (tbl.filter (fun x => x != fd)) else .error .EBADF

/-- Kernel dup2(2): duplicates oldfd onto newfd (closing newfd first if open,
which the table model absorbs since the slot is reused), fails with EBADF when
oldfd is not open. -/
def dup2Sys (tbl : FdTable) (oldfd newfd : Int) : Except NixErr FdTable :=
  if oldfd ∈ tbl then .ok (if newfd ∈ tbl then tbl else newfd :: tbl)
  else .error .EBADF

/-- Effect on the fd table of the drop policy shared by PipeEnd (src/pipe.rs
146-163), CtlEnd (src/control.rs 82-99) and Message (src/msg.rs 302-324):
descriptors 0..=2 are kept, negative descriptors are kept, any other
descriptor is closed with the close error ignored. -/
def dropFd (tbl : FdTable) (fd : Int) : FdTable :=
  if 0 ≤ fd ∧ fd ≤ 2 then tbl
  else if fd < 0 then tbl
  else tbl.filter (fun x => x != fd)

/-- PipeEnd of src/pipe.rs: one exclusively owned descriptor plus the
phantom direction tag, here carried as a value. -/
structure PipeEnd where
  dir : EndDir
  raw_fd : Int
deriving DecidableEq

/-- PipeEnd::forget (src/pipe.rs 59-61): stores the sentinel -1. -/
def PipeEnd.forget (e : PipeEnd) : PipeEnd := { e with raw_fd := -1 }

/-- PipeEnd::close (src/pipe.rs 63-69): no-op Ok when the stored descriptor is
negative, otherwise a plain close(2) of the stored descriptor.  The stored
descriptor is not changed by the call. -/
def PipeEnd.close (e : PipeEnd) (tbl : FdTable) : Except NixErr FdTable :=
  if e.raw_fd < 0 then .ok tbl else closeSys tbl e.raw_fd

/-- PipeEnd::dup (src/pipe.rs 74-83): close(target_fd) propagating its error,
then dup2 onto target_fd, returning the new endpoint bound to target_fd. -/
def PipeEnd.dup (e : PipeEnd) (target_fd : Int) (tbl : FdTable) :
    Except NixErr (PipeEnd × FdTable) :=
  match closeSys tbl target_fd with
  | .error er => .error er
  | .ok tbl1 =>
    match dup2Sys tbl1 e.raw_fd target_fd with
    | .error er => .error er
    | .ok tbl2 => .ok ({ dir := e.dir, raw_fd := target_fd }, tbl2)

/-- Drop for PipeEnd (src/pipe.rs 146-163). -/
def PipeEnd.drop (e : PipeEnd) (tbl : FdTable) : FdTable := dropFd tbl e.raw_fd

/-- PipeEnd::replace (src/pipe.rs 88-107): when the stored descriptor equals
target_fd, forget and succeed; when the stored descriptor is -1, succeed doing
nothing; otherwise close(target_fd) propagating its error, dup2 onto
target_fd, and forget the source.  On the early-error returns the consumed
source endpoint is dropped still holding its descriptor, so the drop policy
runs on it; on success the source was forgotten, so its drop closes nothing. -/
def PipeEnd.replace (e : PipeEnd) (target_fd : Int) (tbl : FdTable) :
    Except NixErr Unit × FdTable :=
  if e.raw_fd = target_fd then (.ok (), tbl)
  else if e.raw_fd = -1 then (.ok (), tbl)
  else
    match closeSys tbl target_fd with
    | .error er => (.error er, dropFd tbl e.raw_fd)
    | .ok tbl1 =>
      match dup2Sys tbl1 e.raw_fd target_fd with
      | .error er => (.error er, dropFd tbl1 e.raw_fd)
      | .ok tbl2 => (.ok (), tbl2)

/-- CtlEnd of src/control.rs: one side of the control socket pair, with the
same descriptor lifecycle as PipeEnd. -/
structure CtlEnd where
  dir : EndDir
  raw_fd : Int
deriving DecidableEq

/-- CtlEnd::forget (src/control.rs 36-38). -/
def CtlEnd.forget (c : CtlEnd) : CtlEnd := { c with raw_fd := -1 }

/-- CtlEnd::close (src/control.rs 40-46): same shape as PipeEnd::close. -/
def CtlEnd.close (c : CtlEnd) (tbl : FdTable) : Except NixErr FdTable :=
  if c.raw_fd < 0 then .ok tbl else closeSys tbl c.raw_fd

/-- Drop for CtlEnd (src/control.rs 82-99). -/
def CtlEnd.drop (c : CtlEnd) (tbl : FdTable) : FdTable := dropFd tbl c.raw_fd

/-- The socket type argument passed to socketpair(2). -/
inductive SockType
  | Stream
  | Datagram
  | SeqPacket
  | Raw
deriving DecidableEq

/-- The connected pair built by Control::new. -/
structure Control where
  read : CtlEnd
  write : CtlEnd
  sockType : SockType
deriving DecidableEq

/-- Control::new (src/control.rs 111-128): socketpair(AddressFamily::Unix,
SockType::Stream, None, SockFlag::empty()), the first returned descriptor
taken as the read end and the second as the write end.  The two descriptor
numbers the kernel allocates are parameters of the model. -/
def Control.new (read_fd write_fd : Int) : Control :=
  { read := { dir := EndDir.Read, raw_fd := read_fd }
  , write := { dir := EndDir.Write, raw_fd := write_fd }
  , sockType := SockType.Stream }

/-- Target of a leader command (src/procs/leader.rs 31-35). -/
inductive Target
  | name (s : String)
  | pid (n : Nat)
deriving DecidableEq

/-- Command (src/procs/leader.rs 38-52). -/
inductive Command
  | init (t : Target)
  | start (t : Target)
  | restart (t : Target)
  | stop (t : Target)
  | status (t : Target)
  | list
deriving DecidableEq

/-- Modelled from the spec: leader.rs imports crate::procs::supervisor::Status
but no Status enum appears in this src snapshot; spec §4.10 lists
Starting, Running, Exited(code), Crashed(signal), Restarting, Stopped. -/
inductive Status
  | Starting
  | Running
  | Exited (code : Int)
  | Crashed (signal : Int)
  | Restarting
  | Stopped
deriving DecidableEq

/-- CommandResponse (src/procs/leader.rs 60-66). -/
inductive CommandResponse
  | ListItem (name : String) (id : Nat) (stat : Status)
deriving DecidableEq

/-- MessageKind (src/msg.rs 26-34). -/
inductive MessageKind
  | ReadPipeEnd
  | WritePipeEnd
  | ReadCtlEnd
  | WriteCtlEnd
  | Command (c : Command)
  | CommandResponse (r : CommandResponse)
deriving DecidableEq

/-- The four kinds grouped by the or-pattern in Message::send_msg (src/msg.rs
159-162) and Message::recv_msg (src/msg.rs 220-223): the kinds that denote a
transferred endpoint. -/
def MessageKind.isEndpoint : MessageKind → Bool
  | .ReadPipeEnd => true
  | .WritePipeEnd => true
  | .ReadCtlEnd => true
  | .WriteCtlEnd => true
  | .Command _ => false
  | .CommandResponse _ => false

/-- Metadata (src/msg.rs 77-87). -/
structure Metadata where
  proc_name : Option String
  pid : Option Int
  source_pid : Int
  target_pid : Option Int
deriving DecidableEq

/-- MessageData (src/msg.rs 121-125). -/
structure MessageData where
  meta : Metadata
  kind : Option MessageKind
deriving DecidableEq

/-- Message (src/msg.rs 128-131): the serializable data plus the optional
attached raw descriptor. -/
structure Message where
  data : MessageData
  fd : Option Int
deriving DecidableEq

/-- The types implementing ToMessageKind (src/msg.rs 41-75 and
src/procs/leader.rs 54-57, 68-73). -/
inductive MsgSource
  | pipeRead (p : PipeEnd)
  | pipeWrite (p : PipeEnd)
  | childStdout (fd : Int)
  | childStderr (fd : Int)
  | ctlRead (fd : Int)
  | ctlWrite (fd : Int)
  | command (c : Command)
  | commandResponse (r : CommandResponse)
deriving DecidableEq

/-- ToMessageKind::to_message_kind for each implementing type: the endpoint
sources yield their raw descriptor (Some), Command and CommandResponse yield
None. -/
def to_message_kind : MsgSource → MessageKind × Option Int
  | .pipeRead p => (.ReadPipeEnd, some p.raw_fd)
  | .pipeWrite p => (.WritePipeEnd, some p.raw_fd)
  | .childStdout fd => (.ReadPipeEnd, some fd)
  | .childStderr fd => (.ReadPipeEnd, some fd)
  | .ctlRead fd => (.ReadCtlEnd, some fd)
  | .ctlWrite fd => (.WriteCtlEnd, some fd)
  | .command c => (.Command c, none)
  | .commandResponse r => (.CommandResponse r, none)

/-- Message::prepare_message (src/msg.rs 138-148). -/
def Message.prepare_message (meta : Metadata) (src : MsgSource) : Message :=
  { data := { meta := meta, kind := some (to_message_kind src).1 }
  , fd := (to_message_kind src).2 }

/-- Message-layer errors the embedding distinguishes, one per error string in
src/msg.rs. -/
inductive MsgErr
  | kindNone
  | noFdToSend
  | missingScmRights
deriving DecidableEq

/-- One datagram as handed to sendmsg: the serialized MessageData in the iovec
(serialization modelled as the identity on MessageData, bincode round-trips)
and the descriptors of the ScmRights control message. -/
structure Datagram where
  data : MessageData
  rights : List Int
deriving DecidableEq

/-- Effect on the fd table of Drop for Message (src/msg.rs 302-324): nothing
when the fd slot is empty, otherwise the shared drop policy on the held fd. -/
def Message.dropTbl (m : Message) (tbl : FdTable) : FdTable :=
  match m.fd with
  | none => tbl
  | some fd => dropFd tbl fd

/-- Message::send_msg (src/msg.rs 150-194) on a consumed message: kind None is
an error; an endpoint kind takes the attached fd (error when None) and sends
it as a one-element ScmRights; any other kind sends empty rights without
touching the fd slot.  The returned table is the sender's table after send_msg
returns, including the drop of the consumed message (whose fd slot was emptied
exactly when the fd was placed in the rights).  send_msg itself never closes
the descriptor it sent. -/
def Message.send_msg (m : Message) (tbl : FdTable) :
    Except MsgErr Datagram × FdTable :=
  match m.data.kind with
  | none => (.error .kindNone, Message.dropTbl m tbl)
  | some k =>
    if k.isEndpoint then
      match m.fd with
      | none => (.error .noFdToSend, tbl)
      | some fd => (.ok { data := m.data, rights := [fd] }, tbl)
    else (.ok { data := m.data, rights := [] }, Message.dropTbl m tbl)

/-- Message::recv_msg (src/msg.rs 196-246) on one received datagram: kind None
is an error; an endpoint kind requires a rights descriptor (first of the
ScmRights list) and attaches it; any other kind yields fd None, ignoring
whatever rights arrived. -/
def Message.recv_msg (d : Datagram) : Except MsgErr Message :=
  match d.data.kind with
  | none => .error .kindNone
  | some k =>
    if k.isEndpoint then
      match d.rights with
      | [] => .error .missingScmRights
      | fd :: _ => .ok { data := d.data, fd := some fd }
    else .ok { data := d.data, fd := none }

/-- Async pipe endpoint (src/pipe.rs 226-229), direction tag as a value. -/
structure AsyncPipeEnd where
  dir : EndDir
  fd : Int
deriving DecidableEq

/-- Message::take_write_pipe_end (src/msg.rs 258-266).  Its Rust return type
is Option of AsyncPipeEnd with the Read type parameter: the endpoint built
from the taken fd carries the Read tag.  Every other kind returns None with
the message unchanged. -/
def Message.take_write_pipe_end (m : Message) : Option AsyncPipeEnd × Message :=
  match m.data.kind with
  | some .WritePipeEnd =>
    match m.fd with
    | some fd => (some { dir := EndDir.Read, fd := fd }, { m with fd := none })
    | none => (none, m)
  | _ => (none, m)

/-- Message::take_read_pipe_end (src/msg.rs 248-256): fd of the produced
AsyncPipeEnd of Read, taken only for kind ReadPipeEnd. -/
def Message.take_read_pipe_end (m : Message) : Option Int × Message :=
  match m.data.kind with
  | some .ReadPipeEnd =>
    match m.fd with
    | some fd => (some fd, { m with fd := none })
    | none => (none, m)
  | _ => (none, m)

/-- Message::take_read_ctl_end (src/msg.rs 268-276): fd of the produced
AsyncCtlEnd of Read, taken only for kind ReadCtlEnd. -/
def Message.take_read_ctl_end (m : Message) : Option Int × Message :=
  match m.data.kind with
  | some .ReadCtlEnd =>
    match m.fd with
    | some fd => (some fd, { m with fd := none })
    | none => (none, m)
  | _ => (none, m)

/-- Message::take_write_ctl_end (src/msg.rs 278-286): fd of the produced
AsyncCtlEnd of Write, taken only for kind WriteCtlEnd. -/
def Message.take_write_ctl_end (m : Message) : Option Int × Message :=
  match m.data.kind with
  | some .WriteCtlEnd =>
    match m.fd with
    | some fd => (some fd, { m with fd := none })
    | none => (none, m)
  | _ => (none, m)

/-- Process-level errors of the Ipc registration functions: panicked models a
Rust panic from expect, errMsg and errStr the two string variants of the crate
error type. -/
inductive IpcErr
  | panicked (s : String)
  | errMsg (s : String)
  | errStr (s : String)
deriving DecidableEq

/-- What the Ipc retains for one registered peer: its pid and the transferred
control descriptor. -/
structure Registered where
  pid : Int
  ctl_fd : Int
deriving DecidableEq

/-- Logger::NAME (src/procs/logger.rs 31). -/
def loggerName : String := "logger"

/-- Leader::NAME (src/procs/leader.rs 86). -/
def leaderName : String := "leader"

/-- Launcher::NAME (src/procs/launcher.rs). -/
def launcherName : String := "launcher"

/-- get_logger (src/procs/ipc.rs 151-170) applied to the message received on
the Ipc's control-in: requires proc_name = Logger::NAME, takes the pid and the
write-control end. -/
def get_logger (m : Message) : Except IpcErr Registered :=
  match m.data.meta.proc_name with
  | none => .error (.panicked "name required for registration")
  | some name =>
    if name = loggerName then
      match m.data.meta.pid with
      | none => .error (.panicked "pid required with logger registration")
      | some pid =>
        match (Message.take_write_ctl_end m).1 with
        | some fd => .ok { pid := pid, ctl_fd := fd }
        | none => .error (.errStr "expected write ctl end")
    else .error (.errMsg ("Wrong process: " ++ name))

/-- get_leader (src/procs/ipc.rs 172-191).  The source compares the proc_name
against procs::Logger::NAME, not Leader's name, and takes the read-control
end. -/
def get_leader (m : Message) : Except IpcErr Registered :=
  match m.data.meta.proc_name with
  | none => .error (.panicked "name required for registration")
  | some name =>
    if name = loggerName then
      match m.data.meta.pid with
      | none => .error (.panicked "pid required for registration")
      | some pid =>
        match (Message.take_read_ctl_end m).1 with
        | some fd => .ok { pid := pid, ctl_fd := fd }
        | none => .error (.errStr "expected read ctl end")
    else .error (.errMsg ("Wrong process: " ++ name))

/-- get_launcher (src/procs/ipc.rs 193-212).  The source compares the
proc_name against procs::Logger::NAME, not Launcher's name, and takes the
write-control end. -/
def get_launcher (m : Message) : Except IpcErr Registered :=
  match m.data.meta.proc_name with
  | none => .error (.panicked "name required for registration")
  | some name =>
    if name = loggerName then
      match m.data.meta.pid with
      | none => .error (.panicked "pid required for registration")
      | some pid =>
        match (Message.take_write_ctl_end m).1 with
        | some fd => .ok { pid := pid, ctl_fd := fd }
        | none => .error (.errStr "expected write ctl end")
    else .error (.errMsg ("Wrong process: " ++ name))

/-- What Ipc::run retains after its initialization handshake. -/
structure Handshake where
  logger : Registered
  leader : Registered
  launcher : Registered
deriving DecidableEq

/-- The three-message initialization sequence of Ipc::run (src/procs/ipc.rs
60-62): get_logger on the first message, get_leader on the second, get_launcher
on the third, failing at the first mismatch. -/
def ipc_handshake (m1 m2 m3 : Message) : Except IpcErr Handshake := do
  let lg ← get_logger m1
  let ld ← get_leader m2
  let ln ← get_launcher m3
  return { logger := lg, leader := ld, launcher := ln }

/-- One observation of BufReader::lines().next_line() in the Logger task. -/
inductive ReadEvent
  | line (s : String)
  | eof
  | errWouldBlock
  | errOther (s : String)
deriving DecidableEq

/-- One line written by the Logger task, to stdout (println) or to stderr
(eprintln). -/
inductive OutLine
  | out (s : String)
  | err (s : String)
deriving DecidableEq

/-- print_messages_to_stdout (src/procs/logger.rs 77-95) as a function of the
sequence of read observations: each Ok(Some(line)) prints the prefixed line
and loops, Ok(None) breaks and prints the shutdown line, a WouldBlock error
prints LOG: WOULD_BLOCK and loops, and any other error prints its line to
stderr and also loops — the Err arm has no break.  The Bool records whether
the loop terminated (the shutdown line was printed); with the event list
exhausted the task is still awaiting the next line. -/
def print_messages_to_stdout (proc_name : String) (pid : Int) :
    List ReadEvent → List OutLine × Bool
  | [] => ([], false)
  | .line s :: rest =>
    let r := print_messages_to_stdout proc_name pid rest
    (OutLine.out ("LOG:" ++ proc_name ++ "[" ++ toString pid ++ "]: " ++ s) :: r.1, r.2)
  | .eof :: _ => ([OutLine.out (toString pid ++ " LOGGING SHUTDOWN")], true)
  | .errWouldBlock :: rest =>
    let r := print_messages_to_stdout proc_name pid rest
    (OutLine.out "LOG: WOULD_BLOCK" :: r.1, r.2)
  | .errOther s :: rest =>
    let r := print_messages_to_stdout proc_name pid rest
    (OutLine.err (toString pid ++ " LOG: error reading from pipe: " ++ s) :: r.1, r.2)

/-- The digit-list core of u8::from_str_radix(s, 10): at least one decimal
digit and a value within 0..=255. -/
def parseU8core (digits : List Char) : Option Nat :=
  if digits = [] then none
  else if digits.all Char.isDigit then
    if digits.foldl (fun a c => a * 10 + (c.toNat - 48)) 0 ≤ 255 then
      some (digits.foldl (fun a c => a * 10 + (c.toNat - 48)) 0)
    else none
  else none

/-- The optional leading plus sign u8::from_str_radix strips before reading
digits. -/
def stripPlus : List Char → List Char
  | '+' :: rest => rest
  | l => l

/-- u8::from_str_radix(s, 10) as used by the max-starts validator and by
Supervisor::run: an optional leading plus sign, then decimal digits, value
bounded by 255. -/
def parseU8 (s : String) : Option Nat :=
  parseU8core (stripPlus s.data)

/-- The validator_os closure on the max-starts argument of
Supervisor::sub_command (src/procs/supervisor.rs 59-63): accepts exactly the
strings u8::from_str_radix parses. -/
def max_starts_validator (s : String) : Bool := (parseU8 s).isSome

/-- One spawn of the payload performed by Supervisor::run: the executable and
the trailing argv passed to every launch. -/
structure Launch where
  executable : String
  args : List String
deriving DecidableEq

/-- Supervisor::run (src/procs/supervisor.rs 72-110) as the sequence of
launches it performs when every launch runs and exits: the max-starts argument
(clap supplies the default "1" when absent) is re-parsed with
u8::from_str_radix — none models the expect panic on an unparseable value,
unreachable past the sub_command validator — and the loop spawns the
executable with the trailing argv once per count, awaiting each exit, then
returns. -/
def Supervisor.run (max_starts_arg : Option String) (executable : String)
    (cmd_args : List String) : Option (List Launch) :=
  (parseU8 (max_starts_arg.getD "1")).map
    (fun n => List.replicate n { executable := executable, args := cmd_args })

/-- Fixture builder for the concrete evaluations below: a registration-style
message with the given role name, pid, attached descriptor and kind (source
pid 1, target pid 9). -/
def regMsg (name : String) (pid fd : Int) (k : MessageKind) : Message :=
  { data := { meta := { proc_name := some name, pid := some pid,
                        source_pid := 1, target_pid := some 9 },
              kind := some k },
    fd := some fd }

/-- Fixture builder: a received datagram with the given kind and rights list
(anonymous metadata, source pid 1). -/
def regDgram (k : MessageKind) (rights : List Int) : Datagram :=
  { data := { meta := { proc_name := none, pid := none,
                        source_pid := 1, target_pid := none },
              kind := some k },
    rights := rights }

/-- Helper: the shared drop policy closes the descriptor exactly when it is
at least 3. -/
theorem dropFd_eq (tbl : FdTable) (fd : Int) :
    dropFd tbl fd = if 3 ≤ fd then tbl.filter (fun x => x != fd) else tbl := by
  unfold dropFd
  split_ifs <;> first | rfl | (exfalso; omega)

/-- Helper: close(2) on an open descriptor removes it. -/
theorem closeSys_mem {tbl : FdTable} {fd : Int} (h : fd ∈ tbl) :
    closeSys tbl fd = .ok (tbl.filter (fun x => x != fd)) := by
  simp [closeSys, h]

/-- Helper: close(2) on a descriptor that is not open fails with EBADF. -/
theorem closeSys_not_mem {tbl : FdTable} {fd : Int} (h : fd ∉ tbl) :
    closeSys tbl fd = .error .EBADF := by
  simp [closeSys, h]

/-- Helper: membership in the table after removing one descriptor. -/
theorem mem_filter_ne {tbl : FdTable} {a b : Int} :
    a ∈ tbl.filter (fun x => x != b) ↔ a ∈ tbl ∧ a ≠ b := by
  simp [List.mem_filter]

/-- Helper: a removed descriptor is no longer in the table. -/
theorem not_mem_filter_self {tbl : FdTable} {b : Int} :
    b ∉ tbl.filter (fun x => x != b) := by
  simp [List.mem_filter]

/-- C5: for every fabric value owning a descriptor — a pipe endpoint, a
control endpoint, or a message still holding its unconsumed attached
descriptor — drop closes the descriptor exactly when it is at least 3;
descriptors 0, 1, 2 and the sentinel -1 are never closed on drop, and after
forget (which stores -1) a subsequent drop performs no close. -/
theorem drop_closes_iff_ge3 (e : PipeEnd) (c : CtlEnd) (m : Message) (tbl : FdTable) :
    PipeEnd.drop e tbl =
      (if 3 ≤ e.raw_fd then tbl.filter (fun x => x != e.raw_fd) else tbl) ∧
    CtlEnd.drop c tbl =
      (if 3 ≤ c.raw_fd then tbl.filter (fun x => x != c.raw_fd) else tbl) ∧
    Message.dropTbl m tbl =
      (match m.fd with
       | none => tbl
       | some fd => if 3 ≤ fd then tbl.filter (fun x => x != fd) else tbl) ∧
    PipeEnd.drop (PipeEnd.forget e) tbl = tbl ∧
    CtlEnd.drop (CtlEnd.forget c) tbl = tbl := by
  refine ⟨dropFd_eq tbl e.raw_fd, dropFd_eq tbl c.raw_fd, ?_, ?_, ?_⟩
  · cases m with
    | mk data fd =>
      cases fd with
      | none => rfl
      | some fd => simpa [Message.dropTbl] using dropFd_eq tbl fd
  · simp [PipeEnd.drop, PipeEnd.forget, dropFd]
  · simp [CtlEnd.drop, CtlEnd.forget, dropFd]

/-- C6 counterexample: close is not idempotent.  With descriptor 5 open, the
first close succeeds and closes 5; calling close again on the same endpoint
does not repeat that result but fails with EBADF, because close leaves the
stored descriptor number in place. -/
theorem close_twice_differs :
    PipeEnd.close { dir := EndDir.Read, raw_fd := 5 } [5] = .ok [] ∧
    PipeEnd.close { dir := EndDir.Read, raw_fd := 5 } [] = .error .EBADF ∧
    (Except.ok [] : Except NixErr FdTable) ≠ .error .EBADF := by
  refine ⟨rfl, rfl, fun h => Except.noConfusion h⟩

/-- C6 amended: close on a forgotten endpoint (negative stored descriptor) is
a no-op returning success, but close does not clear the stored descriptor, so
on an endpoint holding an open descriptor the first close succeeds and a
second close re-issues the syscall and fails with EBADF; close of a
nonnegative descriptor that is not open fails with EBADF.  The same holds for
control endpoints. -/
theorem close_behavior (e : PipeEnd) (c : CtlEnd) (tbl : FdTable) :
    (e.raw_fd < 0 → PipeEnd.close e tbl = .ok tbl) ∧
    (0 ≤ e.raw_fd → e.raw_fd ∈ tbl →
      PipeEnd.close e tbl = .ok (tbl.filter (fun x => x != e.raw_fd)) ∧
      PipeEnd.close e (tbl.filter (fun x => x != e.raw_fd)) = .error .EBADF) ∧
    (0 ≤ e.raw_fd → e.raw_fd ∉ tbl → PipeEnd.close e tbl = .error .EBADF) ∧
    (c.raw_fd < 0 → CtlEnd.close c tbl = .ok tbl) ∧
    (0 ≤ c.raw_fd → c.raw_fd ∈ tbl →
      CtlEnd.close c tbl = .ok (tbl.filter (fun x => x != c.raw_fd)) ∧
      CtlEnd.close c (tbl.filter (fun x => x != c.raw_fd)) = .error .EBADF) := by
  refine ⟨?_, ?_, ?_, ?_, ?_⟩
  · intro h
    simp [PipeEnd.close, h]
  · intro h0 hm
    constructor
    · rw [PipeEnd.close, if_neg (not_lt.mpr h0)]
      exact closeSys_mem hm
    · rw [PipeEnd.close, if_neg (not_lt.mpr h0)]
      exact closeSys_not_mem not_mem_filter_self
  · intro h0 hm
    rw [PipeEnd.close, if_neg (not_lt.mpr h0)]
    exact closeSys_not_mem hm
  · intro h
    simp [CtlEnd.close, h]
  · intro h0 hm
    constructor
    · rw [CtlEnd.close, if_neg (not_lt.mpr h0)]
      exact closeSys_mem hm
    · rw [CtlEnd.close, if_neg (not_lt.mpr h0)]
      exact closeSys_not_mem not_mem_filter_self

/-- C6 witness: the amended close behavior evaluated with descriptor 4 open
in the table. -/
theorem close_behavior_witness :
    PipeEnd.close { dir := EndDir.Read, raw_fd := 4 } [4] =
      .ok (List.filter (fun x => x != (4 : Int)) [4]) ∧
    PipeEnd.close { dir := EndDir.Read, raw_fd := 4 }
      (List.filter (fun x => x != (4 : Int)) [4]) = .error .EBADF :=
  (close_behavior { dir := EndDir.Read, raw_fd := 4 }
    { dir := EndDir.Read, raw_fd := 9 } [4]).2.1 (by decide) (by decide)

/-- C7 counterexample: duplicate_onto does not close the target slot only
when it is open — with source descriptor 5 open and target slot 7 not open,
dup propagates EBADF from close(7) and performs no duplication, instead of
duplicating onto 7 and returning an endpoint bound to 7. -/
theorem dup_closed_target_fails :
    PipeEnd.dup { dir := EndDir.Read, raw_fd := 5 } 7 [5] = .error .EBADF ∧
    PipeEnd.dup { dir := EndDir.Read, raw_fd := 5 } 7 [5] ≠
      .ok ({ dir := EndDir.Read, raw_fd := 7 },
           7 :: List.filter (fun x => x != (7 : Int)) [5]) := by
  have h1 : PipeEnd.dup { dir := EndDir.Read, raw_fd := 5 } 7 [5] = .error .EBADF := rfl
  exact ⟨h1, fun h => Except.noConfusion (h1.symm.trans h)⟩

/-- C7 amended: duplicate_onto closes the target slot unconditionally — when
the target is not open the close fails with EBADF and no duplication happens;
when target and source are open (and distinct) it closes the target,
duplicates the source descriptor onto it and returns the new endpoint bound
to the target.  replace only forgets the source when source equals target;
returns success doing nothing when the source is forgotten (-1); and
otherwise performs the same close-then-duplicate, forgetting the source on
success and dropping the still-owned source descriptor on the error path. -/
theorem dup_replace_behavior (e : PipeEnd) (t : Int) (tbl : FdTable) :
    (t ∉ tbl → PipeEnd.dup e t tbl = .error .EBADF) ∧
    (t ∈ tbl → e.raw_fd ∈ tbl → e.raw_fd ≠ t →
      PipeEnd.dup e t tbl =
        .ok ({ dir := e.dir, raw_fd := t }, t :: tbl.filter (fun x => x != t))) ∧
    (e.raw_fd = t → PipeEnd.replace e t tbl = (.ok (), tbl)) ∧
    (e.raw_fd = -1 → e.raw_fd ≠ t → PipeEnd.replace e t tbl = (.ok (), tbl)) ∧
    (e.raw_fd ≠ t → e.raw_fd ≠ -1 → t ∈ tbl → e.raw_fd ∈ tbl →
      PipeEnd.replace e t tbl = (.ok (), t :: tbl.filter (fun x => x != t))) ∧
    (e.raw_fd ≠ t → e.raw_fd ≠ -1 → t ∉ tbl →
      PipeEnd.replace e t tbl = (.error .EBADF, dropFd tbl e.raw_fd)) := by
  have hmem : ∀ h1 : e.raw_fd ∈ tbl, ∀ h2 : e.raw_fd ≠ t,
      dup2Sys (tbl.filter (fun x => x != t)) e.raw_fd t =
        .ok (t :: tbl.filter (fun x => x != t)) := by
    intro h1 h2
    rw [dup2Sys, if_pos (mem_filter_ne.mpr ⟨h1, h2⟩), if_neg not_mem_filter_self]
  refine ⟨?_, ?_, ?_, ?_, ?_, ?_⟩
  · intro ht
    rw [PipeEnd.dup, closeSys_not_mem ht]
  · intro ht he hne
    rw [PipeEnd.dup, closeSys_mem ht]
    simp only [hmem he hne]
  · intro h
    rw [PipeEnd.replace, if_pos h]
  · intro h hne
    rw [PipeEnd.replace, if_neg hne, if_pos h]
  · intro hne h1 ht he
    rw [PipeEnd.replace, if_neg hne, if_neg h1, closeSys_mem ht]
    simp only [hmem he hne]
  · intro hne h1 ht
    rw [PipeEnd.replace, if_neg hne, if_neg h1, closeSys_not_mem ht]

/-- C7 witness: the amended dup and replace behavior evaluated with source
descriptor 5 and target slot 7 both open. -/
theorem dup_replace_behavior_witness :
    PipeEnd.dup { dir := EndDir.Read, raw_fd := 5 } 7 [5, 7] =
      .ok ({ dir := EndDir.Read, raw_fd := 7 },
           7 :: List.filter (fun x => x != (7 : Int)) [5, 7]) ∧
    PipeEnd.replace { dir := EndDir.Read, raw_fd := 5 } 7 [5, 7] =
      (.ok (), 7 :: List.filter (fun x => x != (7 : Int)) [5, 7]) :=
  ⟨(dup_replace_behavior { dir := EndDir.Read, raw_fd := 5 } 7 [5, 7]).2.1
      (by decide) (by decide) (by decide),
   (dup_replace_behavior { dir := EndDir.Read, raw_fd := 5 } 7 [5, 7]).2.2.2.2.1
      (by decide) (by decide) (by decide) (by decide)⟩

/-- C4: Control::new returns the typed (read-end, write-end) pair over the
two allocated descriptors, but the socketpair is requested with
SockType::Stream — a connected byte-stream pair, not the datagram pair the
claim describes. -/
theorem control_new_socktype (read_fd write_fd : Int) :
    Control.new read_fd write_fd =
      { read := { dir := EndDir.Read, raw_fd := read_fd }
      , write := { dir := EndDir.Write, raw_fd := write_fd }
      , sockType := SockType.Stream } ∧
    (Control.new read_fd write_fd).sockType ≠ SockType.Datagram :=
  ⟨rfl, fun h => SockType.noConfusion h⟩

/-- C2: every registration step of the Ipc handshake compares the sender's
role name against Logger's name.  The spec-mandated leader registration (role
name leader, read-control-end) is rejected with a wrong-process error, a
leader registration carrying role name logger is accepted, the launcher
registration is likewise rejected for role name launcher, the full handshake
on the spec-mandated name sequence logger, leader, launcher fails at the
second message, and it succeeds when all three messages carry role name
logger with the write, read, write control ends. -/
theorem handshake_requires_logger_name :
    get_leader (regMsg "leader" 42 5 MessageKind.ReadCtlEnd) =
      .error (.errMsg "Wrong process: leader") ∧
    get_leader (regMsg "logger" 42 5 MessageKind.ReadCtlEnd) =
      .ok { pid := 42, ctl_fd := 5 } ∧
    get_launcher (regMsg "launcher" 43 6 MessageKind.WriteCtlEnd) =
      .error (.errMsg "Wrong process: launcher") ∧
    ipc_handshake (regMsg "logger" 41 4 MessageKind.WriteCtlEnd)
      (regMsg "leader" 42 5 MessageKind.ReadCtlEnd)
      (regMsg "launcher" 43 6 MessageKind.WriteCtlEnd) =
      .error (.errMsg "Wrong process: leader") ∧
    ipc_handshake (regMsg "logger" 41 4 MessageKind.WriteCtlEnd)
      (regMsg "logger" 42 5 MessageKind.ReadCtlEnd)
      (regMsg "logger" 43 6 MessageKind.WriteCtlEnd) =
      .ok { logger := { pid := 41, ctl_fd := 4 }
          , leader := { pid := 42, ctl_fd := 5 }
          , launcher := { pid := 43, ctl_fd := 6 } } := by
  refine ⟨rfl, rfl, rfl, rfl, rfl⟩

/-- C8: the Logger task formats each received line as LOG:role[pid]: line,
prints LOG: WOULD_BLOCK and continues on a would-block error, and prints the
shutdown line and stops at end-of-file — but on any other read error it
prints the error line to stderr and continues the loop (the error arm has no
break): after the error it still forwards the next line and has not
terminated. -/
theorem logger_error_continues :
    print_messages_to_stdout "leader" 42
        [ReadEvent.line "a", ReadEvent.errWouldBlock, ReadEvent.eof] =
      ([OutLine.out "LOG:leader[42]: a", OutLine.out "LOG: WOULD_BLOCK",
        OutLine.out "42 LOGGING SHUTDOWN"], true) ∧
    print_messages_to_stdout "leader" 42
        [ReadEvent.errOther "boom", ReadEvent.line "hello"] =
      ([OutLine.err "42 LOG: error reading from pipe: boom",
        OutLine.out "LOG:leader[42]: hello"], false) := by
  constructor <;> rfl

/-- Helper: a value parsed by u8::from_str_radix is at most 255. -/
theorem parseU8core_le (ds : List Char) (n : Nat) (h : parseU8core ds = some n) :
    n ≤ 255 := by
  unfold parseU8core at h
  split at h
  · exact absurd h (by simp)
  · split at h
    · split at h
      · cases h
        omega
      · exact absurd h (by simp)
    · exact absurd h (by simp)

/-- C9: for every string the max-starts validator accepts with value n, n is
at most 255 and Supervisor::run launches the configured executable with the
configured trailing argv exactly n times, awaiting each exit, and then
returns; with the flag absent the clap default is one launch, and with value
zero nothing is launched. -/
theorem supervisor_max_starts (s : String) (n : Nat) (exe : String)
    (args : List String) (h : parseU8 s = some n) :
    n ≤ 255 ∧
    Supervisor.run (some s) exe args =
      some (List.replicate n { executable := exe, args := args }) ∧
    Supervisor.run none exe args = some [{ executable := exe, args := args }] ∧
    (n = 0 → Supervisor.run (some s) exe args = some []) := by
  have hcore : parseU8core (stripPlus s.data) = some n := h
  refine ⟨parseU8core_le _ n hcore, ?_, rfl, ?_⟩
  · simp [Supervisor.run, h]
  · intro h0
    subst h0
    simp [Supervisor.run, h]

/-- C9 witness: the Supervisor launch count evaluated at max-starts 3 with
executable /bin/false and one trailing argument. -/
theorem supervisor_max_starts_witness :
    3 ≤ 255 ∧
    Supervisor.run (some "3") "/bin/false" ["-x"] =
      some (List.replicate 3 { executable := "/bin/false", args := ["-x"] }) ∧
    Supervisor.run none "/bin/false" ["-x"] =
      some [{ executable := "/bin/false", args := ["-x"] }] ∧
    ((3 : Nat) = 0 → Supervisor.run (some "3") "/bin/false" ["-x"] = some []) :=
  supervisor_max_starts "3" 3 "/bin/false" ["-x"] (by rfl)

/-- C1 counterexample: a command datagram that arrives with an attached
rights descriptor is not rejected as a protocol error — recv_msg succeeds and
returns the command message with no attached descriptor, silently ignoring
the rights. -/
theorem recv_command_with_rights_ok :
    Message.recv_msg (regDgram (MessageKind.Command Command.list) [7]) =
      .ok { data := (regDgram (MessageKind.Command Command.list) [7]).data,
            fd := none } := rfl

/-- C1 amended: for a message whose kind denotes a transferred endpoint,
send_msg succeeds exactly when a descriptor is attached (failing with the
no-fd error on None) and places it as the single rights entry, and recv_msg
of such a datagram attaches the first rights descriptor, failing when none
arrived; command and command-response messages built by prepare_message carry
no descriptor and are sent with empty rights, and on receive a datagram of
command or command-response kind always yields an unattached message — any
rights that arrived are ignored rather than treated as a protocol error. -/
theorem msg_fd_kind_contract (m : Message) (d : Datagram) (k : MessageKind)
    (meta : Metadata) (tbl : FdTable) (c : Command) (r : CommandResponse) :
    (m.data.kind = some k → k.isEndpoint = true → m.fd = none →
      (Message.send_msg m tbl).1 = .error .noFdToSend) ∧
    (m.data.kind = some k → k.isEndpoint = true → ∀ fd, m.fd = some fd →
      (Message.send_msg m tbl).1 = .ok { data := m.data, rights := [fd] }) ∧
    (d.data.kind = some k → k.isEndpoint = true → d.rights = [] →
      Message.recv_msg d = .error .missingScmRights) ∧
    (d.data.kind = some k → k.isEndpoint = true → ∀ fd rest, d.rights = fd :: rest →
      Message.recv_msg d = .ok { data := d.data, fd := some fd }) ∧
    (Message.prepare_message meta (.command c)).fd = none ∧
    (Message.prepare_message meta (.commandResponse r)).fd = none ∧
    Message.send_msg (Message.prepare_message meta (.command c)) tbl =
      (.ok { data := { meta := meta, kind := some (.Command c) }, rights := [] }, tbl) ∧
    Message.send_msg (Message.prepare_message meta (.commandResponse r)) tbl =
      (.ok { data := { meta := meta, kind := some (.CommandResponse r) }, rights := [] }, tbl) ∧
    (d.data.kind = some k → k.isEndpoint = false →
      Message.recv_msg d = .ok { data := d.data, fd := none }) := by
  refine ⟨?_, ?_, ?_, ?_, rfl, rfl, rfl, rfl, ?_⟩
  · intro hk he hfd
    unfold Message.send_msg
    rw [hk]
    simp [he, hfd]
  · intro hk he fd hfd
    unfold Message.send_msg
    rw [hk]
    simp [he, hfd]
  · intro hk he hr
    unfold Message.recv_msg
    rw [hk]
    simp [he, hr]
  · intro hk he fd rest hr
    unfold Message.recv_msg
    rw [hk]
    simp [he, hr]
  · intro hk he
    unfold Message.recv_msg
    rw [hk]
    simp [he]

/-- C1 witness: the endpoint-kind contract evaluated on a read-pipe-end
message holding descriptor 5 and a read-control-end datagram whose rights
hold descriptor 6. -/
theorem msg_fd_kind_contract_witness :
    (Message.send_msg (regMsg "init-test" 7 5 MessageKind.ReadPipeEnd) []).1 =
      .ok { data := (regMsg "init-test" 7 5 MessageKind.ReadPipeEnd).data,
            rights := [5] } ∧
    Message.recv_msg (regDgram MessageKind.ReadPipeEnd [6, 8]) =
      .ok { data := (regDgram MessageKind.ReadPipeEnd [6, 8]).data, fd := some 6 } :=
  ⟨(msg_fd_kind_contract (regMsg "init-test" 7 5 MessageKind.ReadPipeEnd)
      (regDgram MessageKind.ReadPipeEnd [6, 8]) MessageKind.ReadPipeEnd
      { proc_name := none, pid := none, source_pid := 1, target_pid := none }
      [] Command.list (CommandResponse.ListItem "a" 1 Status.Running)).2.1
      rfl rfl 5 rfl,
   (msg_fd_kind_contract (regMsg "init-test" 7 5 MessageKind.ReadPipeEnd)
      (regDgram MessageKind.ReadPipeEnd [6, 8]) MessageKind.ReadPipeEnd
      { proc_name := none, pid := none, source_pid := 1, target_pid := none }
      [] Command.list (CommandResponse.ListItem "a" 1 Status.Running)).2.2.2.1
      rfl rfl 6 [8] rfl⟩

/-- C3 counterexample: send_msg does not close the sender's duplicate.  A
read-pipe-end message holding descriptor 5, sent from a table in which 5 is
open, is sent successfully, yet descriptor 5 is still open in the sender's
table afterward. -/
theorem send_leaves_sender_fd_open :
    (Message.send_msg (regMsg "init-test" 7 5 MessageKind.ReadPipeEnd) [5]).1 =
      .ok { data := (regMsg "init-test" 7 5 MessageKind.ReadPipeEnd).data,
            rights := [5] } ∧
    (Message.send_msg (regMsg "init-test" 7 5 MessageKind.ReadPipeEnd) [5]).2 = [5] ∧
    (5 : Int) ∈ (Message.send_msg (regMsg "init-test" 7 5 MessageKind.ReadPipeEnd) [5]).2 := by
  refine ⟨rfl, rfl, ?_⟩
  decide

/-- C3 amended: after a successful send_msg of a message carrying a
descriptor, the descriptor has been moved out of the message into the
datagram's rights — so the consumed message's drop closes nothing — but
send_msg performs no close of the descriptor it sent: the sender's fd table
is returned unchanged and the local duplicate remains open. -/
theorem send_msg_no_close (m : Message) (tbl : FdTable) (k : MessageKind) (fd : Int)
    (hk : m.data.kind = some k) (he : k.isEndpoint = true) (hfd : m.fd = some fd) :
    Message.send_msg m tbl = (.ok { data := m.data, rights := [fd] }, tbl) := by
  unfold Message.send_msg
  rw [hk]
  simp [he, hfd]

/-- C3 witness: send_msg of a write-pipe-end message holding descriptor 6,
from the table in which 6 and 3 are open, returns that table unchanged. -/
theorem send_msg_no_close_witness :
    Message.send_msg (regMsg "leader" 12 6 MessageKind.WritePipeEnd) [6, 3] =
      (.ok { data := (regMsg "leader" 12 6 MessageKind.WritePipeEnd).data,
             rights := [6] }, [6, 3]) :=
  send_msg_no_close (regMsg "leader" 12 6 MessageKind.WritePipeEnd) [6, 3]
    MessageKind.WritePipeEnd 6 rfl rfl rfl

/-- C10: take_write_pipe_end on a write-pipe-end message still holding its
attached descriptor consumes the descriptor and returns the async pipe end
built with the Read direction tag — not Write — and on a message of any
other kind (or with no kind) it returns None and leaves the message, with
its descriptor, unchanged. -/
theorem take_write_pipe_end_read_tag (m : Message) (fd : Int) :
    (m.data.kind = some MessageKind.WritePipeEnd → m.fd = some fd →
      Message.take_write_pipe_end m =
        (some { dir := EndDir.Read, fd := fd }, { m with fd := none }) ∧
      ({ dir := EndDir.Read, fd := fd } : AsyncPipeEnd).dir ≠ EndDir.Write) ∧
    (∀ k, m.data.kind = some k → k ≠ MessageKind.WritePipeEnd →
      Message.take_write_pipe_end m = (none, m)) ∧
    (m.data.kind = none → Message.take_write_pipe_end m = (none, m)) := by
  refine ⟨?_, ?_, ?_⟩
  · intro hk hfd
    constructor
    · unfold Message.take_write_pipe_end
      rw [hk, hfd]
    · intro h
      exact EndDir.noConfusion h
  · intro k hk hne
    unfold Message.take_write_pipe_end
    rw [hk]
    cases k <;> first | rfl | exact absurd rfl hne
  · intro hk
    unfold Message.take_write_pipe_end
    rw [hk]

/-- C10 witness: take_write_pipe_end evaluated on a write-pipe-end message
holding descriptor 9. -/
theorem take_write_pipe_end_witness :
    Message.take_write_pipe_end (regMsg "leader" 42 9 MessageKind.WritePipeEnd) =
      (some { dir := EndDir.Read, fd := 9 },
       { regMsg "leader" 42 9 MessageKind.WritePipeEnd with fd := none }) ∧
    ({ dir := EndDir.Read, fd := 9 } : AsyncPipeEnd).dir ≠ EndDir.Write :=
  (take_write_pipe_end_read_tag (regMsg "leader" 42 9 MessageKind.WritePipeEnd) 9).1
    rfl rfl
